import Mathlib

/-!
Shallow embedding of the rule-based text detectors of the `nlp_100`
repository: `detect_spam` (app_002/app_improved.py), `detect_toxicity`
(app_005/app.py), `detect_fake_news` (app_009/app.py) and
`analyze_review_authenticity` (app_020/app.py).  Texts are lists of
characters, scores are rationals, and the Python string helpers
(`in`, `str.count`, `str.lower`, `str.split`, the regexes used by the
apps) are embedded as executable functions below.
-/

namespace Nlp100

/-- A text is a list of characters (the characters of a Python `str`). -/
abbrev Text := List Char

/-- The character list of a string literal. -/
def chars (s : String) : Text := s.data

/-- ASCII lower-casing of one character, as Python `str.lower` acts on the
ASCII texts these apps process. -/
def lowerChar (c : Char) : Char :=
  if 'A' ≤ c ∧ c ≤ 'Z' then Char.ofNat (c.toNat + 32) else c

/-- `text.lower()` on the character list. -/
def lowerText (t : Text) : Text := t.map lowerChar

/-- `c.isupper()` for the ASCII texts at hand. -/
def isUpperChar (c : Char) : Bool := decide ('A' ≤ c ∧ c ≤ 'Z')

/-- An ASCII digit, as matched by the regex class `\d`. -/
def isDigitChar (c : Char) : Bool := decide ('0' ≤ c ∧ c ≤ '9')

/-- A regex word character (`\w`): letter, digit or underscore. -/
def isWordChar (c : Char) : Bool :=
  decide (('a' ≤ c ∧ c ≤ 'z') ∨ ('A' ≤ c ∧ c ≤ 'Z') ∨ ('0' ≤ c ∧ c ≤ '9') ∨ c = '_')

/-- Whitespace for Python `str.split()` on these texts. -/
def isSpaceChar (c : Char) : Bool := (c == ' ') || (c == '\t') || (c == '\n') || (c == '\r')

/-- Python substring test `pat in txt`. -/
def containsSub (pat : Text) : Text → Bool
  | [] => pat.isPrefixOf []
  | c :: rest => pat.isPrefixOf (c :: rest) || containsSub pat rest

/-- Helper for `countOcc`: the `skip` argument consumes the remainder of a
match that has just been counted, so occurrences do not overlap. -/
def countOccAux (pat : Text) : ℕ → Text → ℕ
  | _, [] => 0
  | s + 1, _ :: rest => countOccAux pat s rest
  | 0, c :: rest =>
      if pat.isPrefixOf (c :: rest) then 1 + countOccAux pat (pat.length - 1) rest
      else countOccAux pat 0 rest

/-- Python `txt.count(pat)`: number of non-overlapping occurrences,
scanning left to right. -/
def countOcc (pat t : Text) : ℕ := countOccAux pat 0 t

/-- Whether a run of at least `n` consecutive characters satisfying `p`
occurs in the text: the tests `re.search(r'[A-Z]{5,}', ...)`,
`re.search(r'\d{3,}', ...)`, `re.search(r'!{3,}', ...)`,
`re.search(r'\?{2,}', ...)` of the apps. -/
def hasRun (p : Char → Bool) (n : ℕ) : Text → Bool
  | [] => false
  | c :: rest => (decide (n ≤ rest.length + 1) && ((c :: rest).take n).all p) || hasRun p n rest

/-- `re.search(r'\$\d+', text)`: a dollar sign immediately followed by a digit. -/
def hasDollarDigit : Text → Bool
  | c :: d :: rest => (c == '$' && isDigitChar d) || hasDollarDigit (d :: rest)
  | _ => false

/-- Helper for `countUrls`, with the same skip mechanism as `countOccAux`. -/
def countUrlsAux : ℕ → Text → ℕ
  | _, [] => 0
  | s + 1, _ :: rest => countUrlsAux s rest
  | 0, c :: rest =>
      if (chars "https://").isPrefixOf (c :: rest) then 1 + countUrlsAux 7 rest
      else if (chars "http://").isPrefixOf (c :: rest) then 1 + countUrlsAux 6 rest
      else countUrlsAux 0 rest

/-- `len(re.findall(r'http[s]?://', text))`. -/
def countUrls (t : Text) : ℕ := countUrlsAux 0 t

/-- `len(text.split())`: the number of maximal non-whitespace runs. -/
def countWords (t : Text) : ℕ :=
  (t.foldl (fun acc c =>
      if isSpaceChar c then (acc.1, false)
      else if acc.2 then acc else (acc.1 + 1, true))
    ((0 : ℕ), false)).1

/-- One step of the scanner behind `countNumMatches`.  The state is
0 = previous character is a non-word character (a `\b` position),
1 = inside word characters that are not a countable digit run,
2 = inside a digit run that started at a word boundary. -/
def numRunStep (acc : ℕ × ℕ) (c : Char) : ℕ × ℕ :=
  match acc.2 with
  | 0 => if isDigitChar c then (acc.1, 2) else if isWordChar c then (acc.1, 1) else (acc.1, 0)
  | 1 => if isWordChar c then (acc.1, 1) else (acc.1, 0)
  | _ => if isDigitChar c then (acc.1, 2)
         else if isWordChar c then (acc.1, 1)
         else (acc.1 + 1, 0)

/-- `len(re.findall(r'\b\d+\b', text))`: maximal digit runs delimited by
word boundaries. -/
def countNumMatches (t : Text) : ℕ :=
  let r := t.foldl numRunStep (0, 0)
  if r.2 = 2 then r.1 + 1 else r.1

/-- `len([c for c in text if c.isupper()])`. -/
def countUpper (t : Text) : ℕ := (t.filter isUpperChar).length

/-- The uppercase-character fraction `len([c for c in text if c.isupper()]) / max(len(text), 1)`. -/
def upperFrac (t : Text) : ℚ := (countUpper t : ℚ) / ((max t.length 1 : ℕ) : ℚ)

/-- A presence-based keyword loop `for k in kws: if k in tl: score += w`,
as a sum of per-keyword contributions. -/
def catScore (kws : List Text) (w : ℚ) (tl : Text) : ℚ :=
  (kws.map (fun k => if containsSub k tl then w else 0)).sum

/-- A count-based keyword loop
`for k in kws: if k in tl: score += tl.count(k) * w`, as used by
`detect_fake_news`. -/
def fnCatScore (kws : List Text) (w : ℚ) (tl : Text) : ℚ :=
  (kws.map (fun k => if containsSub k tl then (countOcc k tl : ℚ) * w else 0)).sum

/-- The keywords of a list found in the text, in list order. -/
def foundKeywords (kws : List Text) (tl : Text) : List Text :=
  kws.filter (fun k => containsSub k tl)

/-! ## `detect_spam` (app_002_spam_detection/app_improved.py) -/

/-- The `spam_keywords` list of `detect_spam`. -/
def spam_keywords : List Text :=
  (["winner", "free", "prize", "click here", "urgent", "cash", "loan",
    "credit", "congratulations", "offer", "discount", "limited time",
    "act now", "$$$", "buy now", "call now", "subscribe", "unsubscribe",
    "guarantee", "risk free", "viagra", "pharmacy"]).map chars

/-- The pattern checks of `detect_spam`: multiple digits, excessive caps,
multiple exclamations, dollar amounts, multiple URLs. -/
def spamPatternScore (t : Text) : ℚ :=
  (if hasRun isDigitChar 3 t then (0.5 : ℚ) else 0) +
  (if upperFrac t > 0.5 then (1 : ℚ) else 0) +
  (if t.count '!' > 2 then (0.5 : ℚ) else 0) +
  (if hasDollarDigit t then (0.5 : ℚ) else 0) +
  (if countUrls t > 1 then (0.5 : ℚ) else 0)

/-- The list of human-readable pattern names `patterns_found`. -/
def spamPatternsFound (t : Text) : List String :=
  (if hasRun isDigitChar 3 t then ["Multiple digits"] else []) ++
  (if upperFrac t > 0.5 then ["Excessive CAPS"] else []) ++
  (if t.count '!' > 2 then ["Multiple exclamations"] else []) ++
  (if hasDollarDigit t then ["Dollar amounts"] else []) ++
  (if countUrls t > 1 then ["Multiple URLs"] else [])

/-- The `spam_score` accumulator of `detect_spam`, generalized over the
keyword list exactly as the Python loop ranges over `spam_keywords`. -/
def spamScore (kws : List Text) (t : Text) : ℚ :=
  catScore kws 1 (lowerText t) + spamPatternScore t

/-- `spam_probability = min(spam_score / 5.0, 1.0)`. -/
def spamProbability (kws : List Text) (t : Text) : ℚ :=
  min (spamScore kws t / 5) 1

/-- `is_spam = spam_probability > threshold`. -/
def spamIs (kws : List Text) (t : Text) (threshold : ℚ) : Bool :=
  decide (spamProbability kws t > threshold)

/-- The result dictionary returned by `detect_spam`. -/
structure SpamResult where
  is_spam : Bool
  classification : String
  spam_probability : ℚ
  ham_probability : ℚ
  spam_score : ℚ
  found_keywords : List Text
  keyword_count : ℕ
  patterns_found : List String
  pattern_count : ℕ
  confidence : ℚ
  word_count : ℕ
  text_length : ℕ
  deriving DecidableEq

/-- `detect_spam` with an explicit keyword collection; `detect_spam`
itself instantiates it with the hardwired `spam_keywords`. -/
def detectSpamWith (kws : List Text) (t : Text) (threshold : ℚ) : SpamResult :=
  { is_spam := spamIs kws t threshold
    classification := if spamIs kws t threshold then "SPAM ❌" else "HAM ✅"
    spam_probability := spamProbability kws t
    ham_probability := 1 - spamProbability kws t
    spam_score := spamScore kws t
    found_keywords := foundKeywords kws (lowerText t)
    keyword_count := (foundKeywords kws (lowerText t)).length
    patterns_found := spamPatternsFound t
    pattern_count := (spamPatternsFound t).length
    confidence := max (spamProbability kws t) (1 - spamProbability kws t)
    word_count := countWords t
    text_length := t.length }

/-- `detect_spam(text, threshold)` of app_002's `app_improved.py`. -/
def detect_spam (t : Text) (threshold : ℚ) : SpamResult :=
  detectSpamWith spam_keywords t threshold


/-! ## `detect_toxicity` (app_005_toxicity_detection/app.py) -/

/-- `TOXIC_WORDS['severe']`. -/
def TOXIC_WORDS_severe : List Text := (["kill", "death", "die", "murder", "destroy"]).map chars

/-- `TOXIC_WORDS['obscene']`. -/
def TOXIC_WORDS_obscene : List Text := (["damn", "hell", "crap", "suck"]).map chars

/-- `TOXIC_WORDS['threat']`. -/
def TOXIC_WORDS_threat : List Text :=
  (["will kill", "gonna hurt", "watch out", "be sorry", "regret"]).map chars

/-- `TOXIC_WORDS['insult']`. -/
def TOXIC_WORDS_insult : List Text :=
  (["idiot", "stupid", "dumb", "moron", "fool", "loser", "pathetic"]).map chars

/-- `TOXIC_WORDS['identity']`. -/
def TOXIC_WORDS_identity : List Text :=
  (["race", "religion", "gender", "orientation"]).map chars

/-- The raw `scores['severe_toxic']` accumulator. -/
def toxSevereRaw (t : Text) : ℚ := catScore TOXIC_WORDS_severe 0.3 (lowerText t)

/-- The raw `scores['obscene']` accumulator. -/
def toxObsceneRaw (t : Text) : ℚ := catScore TOXIC_WORDS_obscene 0.25 (lowerText t)

/-- The raw `scores['threat']` accumulator. -/
def toxThreatRaw (t : Text) : ℚ := catScore TOXIC_WORDS_threat 0.4 (lowerText t)

/-- The raw `scores['insult']` accumulator. -/
def toxInsultRaw (t : Text) : ℚ := catScore TOXIC_WORDS_insult 0.2 (lowerText t)

/-- The raw `scores['identity_attack']` accumulator. -/
def toxIdentityRaw (t : Text) : ℚ := catScore TOXIC_WORDS_identity 0.15 (lowerText t)

/-- The raw `scores['toxic']` accumulator: every keyword loop also feeds the
`toxic` bucket, and the two pattern checks add `0.1` and `0.05`. -/
def toxToxicRaw (t : Text) : ℚ :=
  catScore TOXIC_WORDS_severe 0.2 (lowerText t) +
  catScore TOXIC_WORDS_obscene 0.15 (lowerText t) +
  catScore TOXIC_WORDS_threat 0.25 (lowerText t) +
  catScore TOXIC_WORDS_insult 0.15 (lowerText t) +
  catScore TOXIC_WORDS_identity 0.1 (lowerText t) +
  (if hasRun isUpperChar 5 t then (0.1 : ℚ) else 0) +
  (if hasRun (fun c => c == '!') 3 t then (0.05 : ℚ) else 0)

/-- `scores[key] = min(scores[key], 1.0)` applied to each category. -/
def toxClamp (x : ℚ) : ℚ := min x 1

/-- `overall_toxicity = max(scores.values())`. -/
def overallToxicity (t : Text) : ℚ :=
  max (toxClamp (toxToxicRaw t))
    (max (toxClamp (toxSevereRaw t))
      (max (toxClamp (toxObsceneRaw t))
        (max (toxClamp (toxThreatRaw t))
          (max (toxClamp (toxInsultRaw t)) (toxClamp (toxIdentityRaw t))))))

/-- The classification / risk-level cascade of `detect_toxicity`. -/
def toxLabel (overall : ℚ) : String × String :=
  if overall ≥ 0.7 then ("Highly Toxic", "🔴 HIGH RISK")
  else if overall ≥ 0.4 then ("Moderately Toxic", "🟡 MEDIUM RISK")
  else if overall ≥ 0.2 then ("Mildly Toxic", "🟠 LOW RISK")
  else ("Non-Toxic", "🟢 SAFE")

/-- The result dictionary returned by `detect_toxicity`. -/
structure ToxicityResult where
  overall_toxicity : ℚ
  classification : String
  risk_level : String
  toxic : ℚ
  severe_toxic : ℚ
  obscene : ℚ
  threat : ℚ
  insult : ℚ
  identity_attack : ℚ
  detected_severe : List Text
  detected_obscene : List Text
  detected_threat : List Text
  detected_insult : List Text
  detected_identity : List Text
  word_count : ℕ
  deriving DecidableEq

/-- `detect_toxicity(text)` of app_005's `app.py`. -/
def detect_toxicity (t : Text) : ToxicityResult :=
  { overall_toxicity := overallToxicity t
    classification := (toxLabel (overallToxicity t)).1
    risk_level := (toxLabel (overallToxicity t)).2
    toxic := toxClamp (toxToxicRaw t)
    severe_toxic := toxClamp (toxSevereRaw t)
    obscene := toxClamp (toxObsceneRaw t)
    threat := toxClamp (toxThreatRaw t)
    insult := toxClamp (toxInsultRaw t)
    identity_attack := toxClamp (toxIdentityRaw t)
    detected_severe := foundKeywords TOXIC_WORDS_severe (lowerText t)
    detected_obscene := foundKeywords TOXIC_WORDS_obscene (lowerText t)
    detected_threat := foundKeywords TOXIC_WORDS_threat (lowerText t)
    detected_insult := foundKeywords TOXIC_WORDS_insult (lowerText t)
    detected_identity := foundKeywords TOXIC_WORDS_identity (lowerText t)
    word_count := countWords t }

/-! ## `detect_fake_news` (app_009_fake_news_detection/app.py) -/

/-- `FAKE_INDICATORS` of app_009, as category/keyword-list pairs. -/
def FAKE_INDICATORS_fn : List (String × List Text) :=
  [("sensationalism", (["shocking", "unbelievable", "you won't believe", "amazing",
      "incredible", "mind-blowing", "jaw-dropping", "viral", "breaking"]).map chars),
   ("emotion", (["outrage", "furious", "devastating", "horrifying", "terrifying",
      "scandal"]).map chars),
   ("urgency", (["now", "immediately", "urgent", "breaking", "just in", "alert"]).map chars),
   ("absolute", (["always", "never", "everyone", "nobody", "completely", "totally",
      "all"]).map chars),
   ("unreliable", (["sources say", "rumor", "allegedly", "reportedly", "claims",
      "unconfirmed"]).map chars)]

/-- `CREDIBLE_INDICATORS` of app_009, as category/keyword-list pairs. -/
def CREDIBLE_INDICATORS_fn : List (String × List Text) :=
  [("sources", (["according to", "study shows", "research", "official", "reported by",
      "statement", "confirmed"]).map chars),
   ("facts", (["data", "statistics", "percent", "number", "figure", "analysis"]).map chars),
   ("attribution", (["said", "stated", "announced", "revealed", "disclosed"]).map chars),
   ("verification", (["verified", "fact-checked", "confirmed", "authenticated",
      "validated"]).map chars)]

/-- The raw `fake_score` accumulator: `count * 0.15` per keyword occurrence
over every `FAKE_INDICATORS` category, plus the three pattern checks. -/
def fnFakeRaw (t : Text) : ℚ :=
  (FAKE_INDICATORS_fn.map (fun cat => fnCatScore cat.2 0.15 (lowerText t))).sum +
  (if hasRun isUpperChar 10 t then (0.3 : ℚ) else 0) +
  (if hasRun (fun c => c == '!') 3 t then (0.2 : ℚ) else 0) +
  (if hasRun (fun c => c == '?') 2 t then (0.1 : ℚ) else 0)

/-- The raw `credible_score` accumulator: `count * 0.2` per keyword
occurrence over every `CREDIBLE_INDICATORS` category. -/
def fnCredRaw (t : Text) : ℚ :=
  (CREDIBLE_INDICATORS_fn.map (fun cat => fnCatScore cat.2 0.2 (lowerText t))).sum

/-- `fake_score = min(fake_score, 1.0)`. -/
def fnFake (t : Text) : ℚ := min (fnFakeRaw t) 1

/-- `credible_score = min(credible_score, 1.0)`. -/
def fnCred (t : Text) : ℚ := min (fnCredRaw t) 1

/-- The `credibility` computation of `detect_fake_news`, including its
guard for the all-zero case. -/
def fnCredibility (t : Text) : ℚ :=
  if 0 < fnCred t ∨ 0 < fnFake t then
    (if 0 < fnCred t + fnFake t then fnCred t / (fnCred t + fnFake t) else 0.5)
  else 0.5

/-- The classification / risk cascade of `detect_fake_news`. -/
def fnLabel (credibility : ℚ) : String × String :=
  if credibility ≥ 0.7 then ("Likely Credible", "🟢 Low Risk")
  else if credibility ≥ 0.5 then ("Mixed Signals", "🟡 Medium Risk")
  else if credibility ≥ 0.3 then ("Questionable", "🟠 High Risk")
  else ("Likely Fake", "🔴 Very High Risk")

/-- The per-category matched keywords recorded in `fake_found` /
`credible_found`. -/
def fnFound (cats : List (String × List Text)) (tl : Text) : List (String × List Text) :=
  cats.map (fun cat => (cat.1, foundKeywords cat.2 tl))

/-- The result dictionary returned by `detect_fake_news`. -/
structure FakeNewsResult where
  credibility : ℚ
  classification : String
  risk_level : String
  fake_score : ℚ
  credible_score : ℚ
  fake_indicators : List (String × List Text)
  credible_indicators : List (String × List Text)
  word_count : ℕ
  deriving DecidableEq

/-- `detect_fake_news(text)` of app_009's `app.py`. -/
def detect_fake_news (t : Text) : FakeNewsResult :=
  { credibility := fnCredibility t
    classification := (fnLabel (fnCredibility t)).1
    risk_level := (fnLabel (fnCredibility t)).2
    fake_score := fnFake t
    credible_score := fnCred t
    fake_indicators := fnFound FAKE_INDICATORS_fn (lowerText t)
    credible_indicators := fnFound CREDIBLE_INDICATORS_fn (lowerText t)
    word_count := countWords t }

/-! ## `analyze_review_authenticity` (app_020_review_authenticity/app.py) -/

/-- `FAKE_INDICATORS` of app_020. -/
def FAKE_INDICATORS_ra : List Text :=
  (["best product ever", "highly recommend", "must buy", "amazing product",
    "life changing", "perfect", "excellent quality"]).map chars

/-- `SPAM_PATTERNS` of app_020. -/
def SPAM_PATTERNS_ra : List Text :=
  (["click here", "visit", "check out", "limited time", "discount", "promo",
    "coupon"]).map chars

/-- `AUTHENTIC_INDICATORS` of app_020. -/
def AUTHENTIC_INDICATORS_ra : List Text :=
  (["however", "but", "although", "wish", "could be better", "pros and cons",
    "disappointed", "satisfied"]).map chars

/-- `sum(1 for word in ['i ', 'my ', 'me ', 'mine '] if word in text_lower)`. -/
def raPersonalCount (tl : Text) : ℕ :=
  (((["i ", "my ", "me ", "mine "]).map chars).filter (fun w => containsSub w tl)).length

/-- The `fake_score` accumulator of `analyze_review_authenticity`:
fake phrases, spam patterns, very short review, caps ratio, excessive
exclamation marks. -/
def raFake (t : Text) : ℚ :=
  catScore FAKE_INDICATORS_ra 0.4 (lowerText t) +
  catScore SPAM_PATTERNS_ra 0.5 (lowerText t) +
  (if countWords (lowerText t) < 10 then (0.3 : ℚ) else 0) +
  (if upperFrac t > 0.3 then (0.4 : ℚ) else 0) +
  (if t.count '!' > 3 then (0.3 : ℚ) else 0)

/-- The `authentic_score` accumulator of `analyze_review_authenticity`:
authentic phrases, long review, numeric details, personal pronouns. -/
def raAuth (t : Text) : ℚ :=
  catScore AUTHENTIC_INDICATORS_ra 0.3 (lowerText t) +
  (if 30 < countWords (lowerText t) then (0.2 : ℚ) else 0) +
  (if 0 < countNumMatches t then (countNumMatches t : ℚ) * 0.15 else 0) +
  (raPersonalCount (lowerText t) : ℚ) * 0.2

/-- The `authenticity_score` computation of `analyze_review_authenticity`. -/
def raAuthenticity (t : Text) : ℚ :=
  if raFake t > raAuth t then
    max 0 (1 - raFake t / max (raFake t + raAuth t) 0.1)
  else
    min 1 (raAuth t / max (raFake t + raAuth t) 0.1)

/-- The classification / trust cascade of `analyze_review_authenticity`. -/
def raLabel (authenticity : ℚ) : String × String :=
  if authenticity ≥ 0.7 then ("✅ Likely Authentic", "High")
  else if authenticity ≥ 0.5 then ("🟡 Moderately Authentic", "Medium")
  else if authenticity ≥ 0.3 then ("⚠️ Questionable", "Low")
  else ("🚫 Likely Fake/Spam", "Very Low")

/-- The result dictionary returned by `analyze_review_authenticity`. -/
structure ReviewResult where
  authenticity_score : ℚ
  classification : String
  trust : String
  fake_score : ℚ
  authentic_score : ℚ
  word_count : ℕ
  deriving DecidableEq

/-- `analyze_review_authenticity(text)` of app_020's `app.py`. -/
def analyze_review_authenticity (t : Text) : ReviewResult :=
  { authenticity_score := raAuthenticity t
    classification := (raLabel (raAuthenticity t)).1
    trust := (raLabel (raAuthenticity t)).2
    fake_score := raFake t
    authentic_score := raAuth t
    word_count := countWords (lowerText t) }

/-! ## Basic lemmas about the scoring accumulators -/

theorem ite_nonneg {c : Prop} [Decidable c] {a b : ℚ} (ha : 0 ≤ a) (hb : 0 ≤ b) :
    0 ≤ if c then a else b := by
  split <;> assumption

theorem catScore_nonneg (kws : List Text) (w : ℚ) (tl : Text) (hw : 0 ≤ w) :
    0 ≤ catScore kws w tl := by
  refine List.sum_nonneg ?_
  intro x hx
  rw [List.mem_map] at hx
  obtain ⟨k, -, rfl⟩ := hx
  exact ite_nonneg hw le_rfl

theorem fnCatScore_nonneg (kws : List Text) (w : ℚ) (tl : Text) (hw : 0 ≤ w) :
    0 ≤ fnCatScore kws w tl := by
  refine List.sum_nonneg ?_
  intro x hx
  rw [List.mem_map] at hx
  obtain ⟨k, -, rfl⟩ := hx
  exact ite_nonneg (mul_nonneg (Nat.cast_nonneg _) hw) le_rfl

theorem spamPatternScore_nonneg (t : Text) : 0 ≤ spamPatternScore t := by
  unfold spamPatternScore
  have h : ∀ c : Prop, ∀ _ : Decidable c, ∀ a : ℚ, 0 ≤ a → 0 ≤ if c then a else 0 :=
    fun c _ a ha => ite_nonneg ha le_rfl
  refine add_nonneg (add_nonneg (add_nonneg (add_nonneg ?_ ?_) ?_) ?_) ?_ <;>
    exact h _ _ _ (by norm_num)

theorem spamScore_nonneg (kws : List Text) (t : Text) : 0 ≤ spamScore kws t :=
  add_nonneg (catScore_nonneg kws 1 (lowerText t) zero_le_one) (spamPatternScore_nonneg t)

theorem spamProbability_nonneg (kws : List Text) (t : Text) : 0 ≤ spamProbability kws t :=
  le_min (div_nonneg (spamScore_nonneg kws t) (by norm_num)) zero_le_one

theorem spamProbability_le_one (kws : List Text) (t : Text) : spamProbability kws t ≤ 1 :=
  min_le_right _ _

theorem toxClamp_le_one (x : ℚ) : toxClamp x ≤ 1 := min_le_right _ _

theorem toxClamp_nonneg {x : ℚ} (hx : 0 ≤ x) : 0 ≤ toxClamp x :=
  le_min hx zero_le_one

theorem toxToxicRaw_nonneg (t : Text) : 0 ≤ toxToxicRaw t := by
  unfold toxToxicRaw
  refine add_nonneg (add_nonneg (add_nonneg (add_nonneg (add_nonneg (add_nonneg ?_ ?_) ?_) ?_) ?_)
    (ite_nonneg (by norm_num) le_rfl)) (ite_nonneg (by norm_num) le_rfl) <;>
    exact catScore_nonneg _ _ _ (by norm_num)

theorem overallToxicity_nonneg (t : Text) : 0 ≤ overallToxicity t :=
  le_trans (toxClamp_nonneg (toxToxicRaw_nonneg t)) (le_max_left _ _)

theorem overallToxicity_le_one (t : Text) : overallToxicity t ≤ 1 := by
  unfold overallToxicity
  exact max_le (toxClamp_le_one _) (max_le (toxClamp_le_one _) (max_le (toxClamp_le_one _)
    (max_le (toxClamp_le_one _) (max_le (toxClamp_le_one _) (toxClamp_le_one _)))))

theorem fnFakeRaw_nonneg (t : Text) : 0 ≤ fnFakeRaw t := by
  unfold fnFakeRaw
  refine add_nonneg (add_nonneg (add_nonneg ?_ (ite_nonneg (by norm_num) le_rfl))
    (ite_nonneg (by norm_num) le_rfl)) (ite_nonneg (by norm_num) le_rfl)
  refine List.sum_nonneg ?_
  intro x hx
  rw [List.mem_map] at hx
  obtain ⟨cat, -, rfl⟩ := hx
  exact fnCatScore_nonneg _ _ _ (by norm_num)

theorem fnCredRaw_nonneg (t : Text) : 0 ≤ fnCredRaw t := by
  unfold fnCredRaw
  refine List.sum_nonneg ?_
  intro x hx
  rw [List.mem_map] at hx
  obtain ⟨cat, -, rfl⟩ := hx
  exact fnCatScore_nonneg _ _ _ (by norm_num)

theorem fnFake_nonneg (t : Text) : 0 ≤ fnFake t := le_min (fnFakeRaw_nonneg t) zero_le_one

theorem fnCred_nonneg (t : Text) : 0 ≤ fnCred t := le_min (fnCredRaw_nonneg t) zero_le_one

theorem fnCredibility_nonneg (t : Text) : 0 ≤ fnCredibility t := by
  unfold fnCredibility
  split
  · split
    · exact div_nonneg (fnCred_nonneg t) (by linarith [show (0:ℚ) < fnCred t + fnFake t from by assumption])
    · norm_num
  · norm_num

theorem fnCredibility_le_one (t : Text) : fnCredibility t ≤ 1 := by
  unfold fnCredibility
  split
  · split
    · rename_i hsum
      rw [div_le_one hsum]
      exact le_add_of_nonneg_right (fnFake_nonneg t)
    · norm_num
  · norm_num

theorem raFake_nonneg (t : Text) : 0 ≤ raFake t := by
  unfold raFake
  refine add_nonneg (add_nonneg (add_nonneg (add_nonneg ?_ ?_) (ite_nonneg (by norm_num) le_rfl))
    (ite_nonneg (by norm_num) le_rfl)) (ite_nonneg (by norm_num) le_rfl) <;>
    exact catScore_nonneg _ _ _ (by norm_num)

theorem raAuth_nonneg (t : Text) : 0 ≤ raAuth t := by
  unfold raAuth
  refine add_nonneg (add_nonneg (add_nonneg (catScore_nonneg _ _ _ (by norm_num))
    (ite_nonneg (by norm_num) le_rfl))
    (ite_nonneg (mul_nonneg (Nat.cast_nonneg _) (by norm_num)) le_rfl))
    (mul_nonneg (Nat.cast_nonneg _) (by norm_num))

/-! ## Claim C1 -/

/-- Claim C1: for every input string and every sensitivity/threshold value,
the aggregate score returned by a detector (`spam_probability` in
`detect_spam`, `overall_toxicity` in `detect_toxicity`, `credibility` in
`detect_fake_news`) lies in the closed interval [0, 1]. -/
theorem C1_aggregate_score_in_unit_interval (t : Text) (threshold : ℚ) :
    (0 ≤ (detect_spam t threshold).spam_probability ∧
      (detect_spam t threshold).spam_probability ≤ 1) ∧
    (0 ≤ (detect_toxicity t).overall_toxicity ∧
      (detect_toxicity t).overall_toxicity ≤ 1) ∧
    (0 ≤ (detect_fake_news t).credibility ∧
      (detect_fake_news t).credibility ≤ 1) := by
  refine ⟨⟨?_, ?_⟩, ⟨?_, ?_⟩, ?_, ?_⟩
  · exact spamProbability_nonneg spam_keywords t
  · exact spamProbability_le_one spam_keywords t
  · exact overallToxicity_nonneg t
  · exact overallToxicity_le_one t
  · exact fnCredibility_nonneg t
  · exact fnCredibility_le_one t

/-! ## Claim C2 -/

/-- Claim C2 counterexample: the claim says a score exactly at the spam
threshold classifies as SPAM, but `detect_spam` uses a strict comparison
(`spam_probability > threshold`), so the message "free cash" at threshold
0.4 scores exactly 0.4 and is classified HAM. -/
theorem C2_counterexample :
    (detect_spam (chars "free cash") 0.4).spam_probability = 0.4 ∧
    (detect_spam (chars "free cash") 0.4).classification = "HAM ✅" ∧
    "HAM ✅" ≠ "SPAM ❌" := by
  refine ⟨?_, ?_, by decide⟩ <;>
  · simp +decide [detect_spam, detectSpamWith, spamIs, spamProbability, spamScore,
      spamPatternScore, catScore, spam_keywords, upperFrac, countUpper, chars]
    norm_num

/-- Claim C2 amended: `detect_toxicity` and `detect_fake_news` evaluate
their cutoffs from the highest lower bound downward with `>=`
comparisons, so a score exactly at a boundary resolves to the higher
band (`overall_toxicity` exactly 0.7 is "Highly Toxic", `credibility`
exactly 0.5 is "Mixed Signals"); `detect_spam`, however, compares
strictly, so a score exactly at the threshold resolves to HAM, not
SPAM. -/
theorem C2_amended_boundary_resolution :
    (∀ t : Text, (detect_toxicity t).overall_toxicity = 0.7 →
      (detect_toxicity t).classification = "Highly Toxic") ∧
    (∀ t : Text, (detect_fake_news t).credibility = 0.5 →
      (detect_fake_news t).classification = "Mixed Signals") ∧
    (∀ (t : Text) (threshold : ℚ), (detect_spam t threshold).spam_probability = threshold →
      (detect_spam t threshold).classification = "HAM ✅") := by
  refine ⟨?_, ?_, ?_⟩
  · intro t h
    simp only [detect_toxicity] at h ⊢
    rw [h]
    norm_num [toxLabel]
  · intro t h
    simp only [detect_fake_news] at h ⊢
    rw [h]
    norm_num [fnLabel]
  · intro t threshold h
    simp only [detect_spam, detectSpamWith] at h ⊢
    simp [spamIs, h, lt_irrefl]

/-- Witness for C2's amended claim at concrete inputs: the text
"watch out death damn race" has overall toxicity exactly 0.7 and is
"Highly Toxic"; "data!!!" has credibility exactly 0.5 and is
"Mixed Signals"; "free cash" at threshold 0.4 scores exactly 0.4 and
is HAM. -/
theorem C2_amended_boundary_resolution_witness :
    (detect_toxicity (chars "watch out death damn race")).overall_toxicity = 0.7 ∧
    (detect_toxicity (chars "watch out death damn race")).classification = "Highly Toxic" ∧
    (detect_fake_news (chars "data!!!")).credibility = 0.5 ∧
    (detect_fake_news (chars "data!!!")).classification = "Mixed Signals" ∧
    (detect_spam (chars "free cash") 0.4).spam_probability = 0.4 ∧
    (detect_spam (chars "free cash") 0.4).classification = "HAM ✅" := by
  have h1 : (detect_toxicity (chars "watch out death damn race")).overall_toxicity = 0.7 := by
    simp +decide [detect_toxicity, overallToxicity, toxClamp, toxToxicRaw, toxSevereRaw,
      toxObsceneRaw, toxThreatRaw, toxInsultRaw, toxIdentityRaw, catScore,
      TOXIC_WORDS_severe, TOXIC_WORDS_obscene, TOXIC_WORDS_threat, TOXIC_WORDS_insult,
      TOXIC_WORDS_identity]
    norm_num
  have h2 : (detect_fake_news (chars "data!!!")).credibility = 0.5 := by
    have hl : lowerText (chars "data!!!") = chars "data!!!" := by decide
    have hc : countOcc (chars "data") (chars "data!!!") = 1 := by decide
    simp +decide [detect_fake_news, fnCredibility, fnCred, fnFake, fnCredRaw, fnFakeRaw,
      fnCatScore, FAKE_INDICATORS_fn, CREDIBLE_INDICATORS_fn, hl, hc]
    norm_num
  have h3 : (detect_spam (chars "free cash") 0.4).spam_probability = 0.4 := by
    simp +decide [detect_spam, detectSpamWith, spamProbability, spamScore,
      spamPatternScore, catScore, spam_keywords, upperFrac, countUpper, chars]
    norm_num
  exact ⟨h1, C2_amended_boundary_resolution.1 _ h1,
    h2, C2_amended_boundary_resolution.2.1 _ h2,
    h3, C2_amended_boundary_resolution.2.2 _ _ h3⟩

/-! ## Claim C3 -/

theorem containsSub_false_countOcc_zero (pat : Text) :
    ∀ tl : Text, containsSub pat tl = false → countOcc pat tl = 0 := by
  intro tl
  induction tl with
  | nil => intro _; rfl
  | cons c rest ih =>
    intro h
    simp only [containsSub, Bool.or_eq_false_iff] at h
    simp only [countOcc, countOccAux, h.1, Bool.false_eq_true, if_false]
    exact ih h.2

/-- Claim C3 counterexample: the claim says a term occurring k times in
the lowercased text contributes k times its weight, but `detect_spam` is
presence-based: "free free" contains the keyword "free" twice yet its
spam score is 1, not 2 × 1. -/
theorem C3_counterexample :
    countOcc (chars "free") (lowerText (chars "free free")) = 2 ∧
    (detect_spam (chars "free free") 0.4).spam_score = 1 ∧
    (detect_spam (chars "free free") 0.4).spam_score ≠ 2 * 1 := by
  refine ⟨by decide, ?_, ?_⟩ <;>
  · simp +decide [detect_spam, detectSpamWith, spamScore, spamPatternScore,
      catScore, spam_keywords, upperFrac, countUpper, chars]
    norm_num

/-- Claim C3 amended: only `detect_fake_news` accumulates
`occurrence_count × term_weight` per lexical term; the keyword loops of
`detect_spam` and `detect_toxicity` are presence-based, adding the term
weight once per distinct matched term regardless of how many times it
occurs.  All matched terms are recorded (`found_keywords` holds exactly
the keywords contained in the lowercased text, in list order). -/
theorem C3_amended_accumulation :
    (∀ (kws : List Text) (w : ℚ) (tl : Text),
      fnCatScore kws w tl = (kws.map (fun k => (countOcc k tl : ℚ) * w)).sum) ∧
    (∀ (kws : List Text) (w : ℚ) (tl : Text),
      catScore kws w tl = ((foundKeywords kws tl).length : ℚ) * w) ∧
    (∀ (kws : List Text) (tl : Text) (k : Text),
      k ∈ foundKeywords kws tl ↔ k ∈ kws ∧ containsSub k tl = true) := by
  refine ⟨?_, ?_, ?_⟩
  · intro kws w tl
    induction kws with
    | nil => rfl
    | cons k kws ih =>
      simp only [fnCatScore, List.map_cons, List.sum_cons] at ih ⊢
      rw [ih]
      by_cases h : containsSub k tl
      · simp [h]
      · have hz : countOcc k tl = 0 :=
          containsSub_false_countOcc_zero k tl (Bool.eq_false_iff.mpr h)
        simp [h, hz]
  · intro kws w tl
    induction kws with
    | nil => simp [catScore, foundKeywords]
    | cons k kws ih =>
      simp only [catScore, List.map_cons, List.sum_cons] at ih ⊢
      rw [ih]
      by_cases h : containsSub k tl
      · simp only [foundKeywords, List.filter_cons, h, if_true, List.length_cons]
        push_cast
        ring
      · simp only [foundKeywords, List.filter_cons, h, Bool.false_eq_true, if_false]
        simp [h]
  · intro kws tl k
    simp [foundKeywords, List.mem_filter]

/-! ## Claim C4 -/

/-- Claim C4 counterexample: the claim says changing sensitivity changes
the returned aggregate score, but `detect_spam` returns the same
`spam_probability` (0.4 for "free cash") at sensitivities 0.1 and 0.9:
the threshold never enters the aggregate. -/
theorem C4_counterexample :
    (detect_spam (chars "free cash") 0.1).spam_probability
      = (detect_spam (chars "free cash") 0.9).spam_probability ∧
    (0.1 : ℚ) ≠ 0.9 := by
  constructor
  · simp only [detect_spam, detectSpamWith]
  · norm_num

/-- Claim C4 amended: the sensitivity/threshold parameter never scales
the aggregate score; in `detect_spam` it is used only in the strict
comparison that produces `is_spam` and the classification label, and
every numeric field of the result is independent of it
(`detect_toxicity` takes no sensitivity parameter at all). -/
theorem C4_amended_sensitivity_only_affects_cutoff (t : Text) (th₁ th₂ : ℚ) :
    (detect_spam t th₁).spam_probability = (detect_spam t th₂).spam_probability ∧
    (detect_spam t th₁).spam_score = (detect_spam t th₂).spam_score ∧
    (detect_spam t th₁).ham_probability = (detect_spam t th₂).ham_probability ∧
    (detect_spam t th₁).confidence = (detect_spam t th₂).confidence ∧
    (detect_spam t th₁).is_spam
      = decide (th₁ < (detect_spam t th₁).spam_probability) := by
  exact ⟨rfl, rfl, rfl, rfl, rfl⟩

/-! ## Claim C5 -/

/-- Claim C5 counterexample: on the empty string `detect_fake_news`
returns the neutral credibility 0.5 and the classification
"Mixed Signals", which is the second band, not the lowest-severity
label "Likely Credible" (🟢 Low Risk). -/
theorem C5_counterexample :
    (detect_fake_news (chars "")).credibility = 0.5 ∧
    (detect_fake_news (chars "")).classification = "Mixed Signals" ∧
    "Mixed Signals" ≠ "Likely Credible" := by
  refine ⟨?_, ?_, by decide⟩ <;>
  · simp +decide [detect_fake_news, fnCredibility, fnCred, fnFake, fnCredRaw, fnFakeRaw,
      fnCatScore, FAKE_INDICATORS_fn, CREDIBLE_INDICATORS_fn, fnLabel]
    try norm_num

/-- Claim C5 amended: on the empty string `detect_spam` returns all-zero
scores and HAM for every threshold ≥ 0, and `detect_toxicity` returns
all six category scores 0 with the lowest-severity classification
"Non-Toxic"; `detect_fake_news`, however, returns the neutral
credibility 0.5 and the middle band "Mixed Signals" (its two category
scores are 0). -/
theorem C5_amended_empty_text (threshold : ℚ) (h : 0 ≤ threshold) :
    ((detect_spam (chars "") threshold).spam_score = 0 ∧
     (detect_spam (chars "") threshold).spam_probability = 0 ∧
     (detect_spam (chars "") threshold).classification = "HAM ✅") ∧
    ((detect_toxicity (chars "")).toxic = 0 ∧
     (detect_toxicity (chars "")).severe_toxic = 0 ∧
     (detect_toxicity (chars "")).obscene = 0 ∧
     (detect_toxicity (chars "")).threat = 0 ∧
     (detect_toxicity (chars "")).insult = 0 ∧
     (detect_toxicity (chars "")).identity_attack = 0 ∧
     (detect_toxicity (chars "")).overall_toxicity = 0 ∧
     (detect_toxicity (chars "")).classification = "Non-Toxic") ∧
    ((detect_fake_news (chars "")).fake_score = 0 ∧
     (detect_fake_news (chars "")).credible_score = 0 ∧
     (detect_fake_news (chars "")).credibility = 0.5 ∧
     (detect_fake_news (chars "")).classification = "Mixed Signals") := by
  have hprob : spamProbability spam_keywords (chars "") = 0 := by
    simp +decide [spamProbability, spamScore, spamPatternScore, catScore,
      spam_keywords, upperFrac, countUpper, chars]
    norm_num
  have his : spamIs spam_keywords (chars "") threshold = false := by
    simp only [spamIs, hprob, gt_iff_lt, decide_eq_false_iff_not]
    exact not_lt.mpr h
  refine ⟨⟨?_, ?_, ?_⟩, ?_, ?_⟩
  · simp +decide [detect_spam, detectSpamWith, spamScore, spamPatternScore, catScore,
      spam_keywords, upperFrac, countUpper, chars]
    norm_num
  · simpa [detect_spam, detectSpamWith] using hprob
  · simp [detect_spam, detectSpamWith, his]
  · refine ⟨?_, ?_, ?_, ?_, ?_, ?_, ?_, ?_⟩ <;>
    · simp +decide [detect_toxicity, overallToxicity, toxClamp, toxToxicRaw, toxSevereRaw,
        toxObsceneRaw, toxThreatRaw, toxInsultRaw, toxIdentityRaw, catScore,
        TOXIC_WORDS_severe, TOXIC_WORDS_obscene, TOXIC_WORDS_threat, TOXIC_WORDS_insult,
        TOXIC_WORDS_identity, toxLabel]
      try norm_num
  · refine ⟨?_, ?_, ?_, ?_⟩ <;>
    · simp +decide [detect_fake_news, fnCredibility, fnCred, fnFake, fnCredRaw, fnFakeRaw,
        fnCatScore, FAKE_INDICATORS_fn, CREDIBLE_INDICATORS_fn, fnLabel]
      try norm_num

/-- Witness for C5's amended claim at the concrete threshold 0.4. -/
theorem C5_amended_empty_text_witness :
    (0 : ℚ) ≤ 0.4 ∧
    ((detect_spam (chars "") 0.4).spam_score = 0 ∧
     (detect_spam (chars "") 0.4).spam_probability = 0 ∧
     (detect_spam (chars "") 0.4).classification = "HAM ✅") ∧
    (detect_toxicity (chars "")).classification = "Non-Toxic" ∧
    (detect_fake_news (chars "")).classification = "Mixed Signals" := by
  have h : (0 : ℚ) ≤ 0.4 := by norm_num
  obtain ⟨hs, ht, hf⟩ := C5_amended_empty_text 0.4 h
  exact ⟨h, hs, ht.2.2.2.2.2.2.2, hf.2.2.2⟩

/-! ## Claim C6 -/

theorem take_append_le (n : ℕ) :
    ∀ l u : Text, n ≤ l.length → (l ++ u).take n = l.take n := by
  induction n with
  | zero => intro l u _; simp
  | succ n ih =>
    intro l u h
    cases l with
    | nil => simp at h
    | cons c rest =>
      simp only [List.cons_append, List.take_succ_cons]
      rw [ih rest u (by simpa using h)]

theorem isPrefixOf_append_right (p : Text) :
    ∀ l u : Text, p.isPrefixOf l = true → p.isPrefixOf (l ++ u) = true := by
  induction p with
  | nil => intro l u _; cases l ++ u <;> rfl
  | cons a p ih =>
    intro l u h
    cases l with
    | nil => simp [List.isPrefixOf] at h
    | cons b l =>
      simp only [List.isPrefixOf, Bool.and_eq_true] at h
      simp only [List.cons_append, List.isPrefixOf, Bool.and_eq_true]
      exact ⟨h.1, ih l u h.2⟩

theorem containsSub_nil_pat : ∀ u : Text, containsSub [] u = true := by
  intro u
  cases u with
  | nil => rfl
  | cons c rest => simp [containsSub, List.isPrefixOf]

theorem containsSub_append_right (p : Text) :
    ∀ l u : Text, containsSub p l = true → containsSub p (l ++ u) = true := by
  intro l
  induction l with
  | nil =>
    intro u h
    cases p with
    | nil => exact containsSub_nil_pat u
    | cons a q => simp [containsSub, List.isPrefixOf] at h
  | cons c rest ih =>
    intro u h
    simp only [containsSub, Bool.or_eq_true] at h
    simp only [List.cons_append, containsSub, Bool.or_eq_true]
    rcases h with h | h
    · exact Or.inl (by simpa using isPrefixOf_append_right p (c :: rest) u h)
    · exact Or.inr (ih u h)

theorem hasRun_append_right (p : Char → Bool) (n : ℕ) :
    ∀ l u : Text, hasRun p n l = true → hasRun p n (l ++ u) = true := by
  intro l
  induction l with
  | nil => intro u h; simp [hasRun] at h
  | cons c rest ih =>
    intro u h
    simp only [hasRun, Bool.or_eq_true, Bool.and_eq_true, decide_eq_true_eq] at h
    simp only [List.cons_append, hasRun, Bool.or_eq_true, Bool.and_eq_true, decide_eq_true_eq,
      List.append_eq]
    rcases h with ⟨hn, hall⟩ | h
    · left
      refine ⟨by simp; omega, ?_⟩
      have h2 : ((c :: rest) ++ u).take n = (c :: rest).take n :=
        take_append_le n (c :: rest) u (by simpa using hn)
      rw [List.cons_append] at h2
      rw [h2]
      exact hall
    · exact Or.inr (ih u h)

theorem lowerText_append (l u : Text) :
    lowerText (l ++ u) = lowerText l ++ lowerText u := by
  simp [lowerText]

theorem catScore_mono_append (kws : List Text) (w : ℚ) (hw : 0 ≤ w) (t u : Text) :
    catScore kws w (lowerText t) ≤ catScore kws w (lowerText (t ++ u)) := by
  rw [lowerText_append]
  refine List.sum_le_sum ?_
  intro k _
  by_cases h : containsSub k (lowerText t)
  · rw [if_pos h, if_pos (containsSub_append_right k (lowerText t) (lowerText u) h)]
  · rw [if_neg h]
    exact ite_nonneg hw le_rfl

theorem ite_run_mono (p : Char → Bool) (n : ℕ) (w : ℚ) (hw : 0 ≤ w) (t u : Text) :
    (if hasRun p n t then w else 0) ≤ (if hasRun p n (t ++ u) then w else 0) := by
  by_cases h : hasRun p n t
  · rw [if_pos h, if_pos (hasRun_append_right p n t u h)]
  · rw [if_neg h]
    exact ite_nonneg hw le_rfl

theorem toxToxicRaw_mono_append (t u : Text) : toxToxicRaw t ≤ toxToxicRaw (t ++ u) := by
  unfold toxToxicRaw
  gcongr ?_ + ?_ + ?_ + ?_ + ?_ + ?_ + ?_
  · exact catScore_mono_append _ _ (by norm_num) t u
  · exact catScore_mono_append _ _ (by norm_num) t u
  · exact catScore_mono_append _ _ (by norm_num) t u
  · exact catScore_mono_append _ _ (by norm_num) t u
  · exact catScore_mono_append _ _ (by norm_num) t u
  · exact ite_run_mono _ _ _ (by norm_num) t u
  · exact ite_run_mono _ _ _ (by norm_num) t u

theorem toxClamp_mono {x y : ℚ} (h : x ≤ y) : toxClamp x ≤ toxClamp y :=
  min_le_min h le_rfl

/-- Claim C6 counterexample: appending the recognized keyword "free" to
the text "FREE" makes the spam score *drop* from 2 to 1 (and the spam
probability from 0.4 to 0.2), because the appended lowercase word
destroys the excessive-caps structural signal while the presence-based
keyword score cannot count "free" a second time. -/
theorem C6_counterexample :
    chars "FREE free" = chars "FREE" ++ chars " free" ∧
    containsSub (chars "free") (lowerText (chars " free")) = true ∧
    (detect_spam (chars "FREE") 0.4).spam_score = 2 ∧
    (detect_spam (chars "FREE free") 0.4).spam_score = 1 ∧
    (detect_spam (chars "FREE free") 0.4).spam_probability
      < (detect_spam (chars "FREE") 0.4).spam_probability := by
  refine ⟨by decide, by decide, ?_, ?_, ?_⟩ <;>
  · simp +decide [detect_spam, detectSpamWith, spamProbability, spamScore,
      spamPatternScore, catScore, spam_keywords, upperFrac, countUpper, chars]
    try norm_num

/-- Claim C6 amended: appending any suffix (a recognized lexical term in
particular) never decreases any of `detect_toxicity`'s category scores
or its overall toxicity, because all of its lexical and structural
signals are preserved under appending; the property fails for
`detect_spam`, whose excessive-caps signal can be destroyed by an
appended lowercase keyword ("FREE" scores 2 but "FREE free" scores 1). -/
theorem C6_amended_toxicity_monotone (t u : Text) :
    (detect_toxicity t).toxic ≤ (detect_toxicity (t ++ u)).toxic ∧
    (detect_toxicity t).severe_toxic ≤ (detect_toxicity (t ++ u)).severe_toxic ∧
    (detect_toxicity t).obscene ≤ (detect_toxicity (t ++ u)).obscene ∧
    (detect_toxicity t).threat ≤ (detect_toxicity (t ++ u)).threat ∧
    (detect_toxicity t).insult ≤ (detect_toxicity (t ++ u)).insult ∧
    (detect_toxicity t).identity_attack ≤ (detect_toxicity (t ++ u)).identity_attack ∧
    (detect_toxicity t).overall_toxicity ≤ (detect_toxicity (t ++ u)).overall_toxicity := by
  simp only [detect_toxicity]
  have hsev := toxClamp_mono
    (catScore_mono_append TOXIC_WORDS_severe 0.3 (by norm_num) t u)
  have hobs := toxClamp_mono
    (catScore_mono_append TOXIC_WORDS_obscene 0.25 (by norm_num) t u)
  have hthr := toxClamp_mono
    (catScore_mono_append TOXIC_WORDS_threat 0.4 (by norm_num) t u)
  have hins := toxClamp_mono
    (catScore_mono_append TOXIC_WORDS_insult 0.2 (by norm_num) t u)
  have hid := toxClamp_mono
    (catScore_mono_append TOXIC_WORDS_identity 0.15 (by norm_num) t u)
  have htox := toxClamp_mono (toxToxicRaw_mono_append t u)
  refine ⟨htox, hsev, hobs, hthr, hins, hid, ?_⟩
  unfold overallToxicity
  exact max_le_max htox (max_le_max hsev (max_le_max hobs (max_le_max hthr
    (max_le_max hins hid))))

/-! ## Claim C7 -/

theorem catScore_zero_or_ge (kws : List Text) (w : ℚ) (tl : Text) (hw : 0 ≤ w) :
    catScore kws w tl = 0 ∨ w ≤ catScore kws w tl := by
  induction kws with
  | nil => left; rfl
  | cons k kws ih =>
    have htail : 0 ≤ catScore kws w tl := catScore_nonneg kws w tl hw
    simp only [catScore, List.map_cons, List.sum_cons] at ih htail ⊢
    by_cases h : containsSub k tl
    · right
      rw [if_pos h]
      linarith
    · rw [if_neg h, zero_add]
      exact ih

set_option maxHeartbeats 1600000 in
theorem raFake_zero_or_ge (t : Text) : raFake t = 0 ∨ (0.3 : ℚ) ≤ raFake t := by
  have h1 := catScore_zero_or_ge FAKE_INDICATORS_ra 0.4 (lowerText t) (by norm_num)
  have h2 := catScore_zero_or_ge SPAM_PATTERNS_ra 0.5 (lowerText t) (by norm_num)
  have h1n := catScore_nonneg FAKE_INDICATORS_ra 0.4 (lowerText t) (by norm_num)
  have h2n := catScore_nonneg SPAM_PATTERNS_ra 0.5 (lowerText t) (by norm_num)
  unfold raFake
  rcases h1 with h1 | h1 <;> rcases h2 with h2 | h2 <;> split <;> split <;> split <;>
    first
    | (left ; linarith)
    | (right ; linarith)

set_option maxHeartbeats 1600000 in
theorem raAuth_zero_or_ge (t : Text) : raAuth t = 0 ∨ (0.15 : ℚ) ≤ raAuth t := by
  have hA := catScore_zero_or_ge AUTHENTIC_INDICATORS_ra 0.3 (lowerText t) (by norm_num)
  have hAn := catScore_nonneg AUTHENTIC_INDICATORS_ra 0.3 (lowerText t) (by norm_num)
  have hD : ((raPersonalCount (lowerText t) : ℚ)) * 0.2 = 0 ∨
      (0.2 : ℚ) ≤ (raPersonalCount (lowerText t) : ℚ) * 0.2 := by
    rcases Nat.eq_zero_or_pos (raPersonalCount (lowerText t)) with h | h
    · left
      rw [h]
      norm_num
    · right
      have h1 : (1 : ℚ) ≤ (raPersonalCount (lowerText t) : ℚ) := by exact_mod_cast h
      nlinarith
  have hC : (if 0 < countNumMatches t then (countNumMatches t : ℚ) * 0.15 else 0) = 0 ∨
      (0.15 : ℚ) ≤ (if 0 < countNumMatches t then (countNumMatches t : ℚ) * 0.15 else 0) := by
    split
    · right
      rename_i h
      have h1 : (1 : ℚ) ≤ (countNumMatches t : ℚ) := by exact_mod_cast h
      nlinarith
    · left
      rfl
  have hCn : 0 ≤ (if 0 < countNumMatches t then (countNumMatches t : ℚ) * 0.15 else 0) :=
    ite_nonneg (mul_nonneg (Nat.cast_nonneg _) (by norm_num)) le_rfl
  have hDn : 0 ≤ ((raPersonalCount (lowerText t) : ℚ)) * 0.2 :=
    mul_nonneg (Nat.cast_nonneg _) (by norm_num)
  unfold raAuth
  rcases hA with hA | hA <;> rcases hC with hC | hC <;> rcases hD with hD | hD <;> split <;>
    first
    | (left ; linarith)
    | (right ; linarith)

theorem raSum_ge_of_pos (t : Text) (h : 0 < raFake t + raAuth t) :
    (0.1 : ℚ) ≤ raFake t + raAuth t := by
  have hf := raFake_nonneg t
  have ha := raAuth_nonneg t
  rcases raFake_zero_or_ge t with h1 | h1 <;> rcases raAuth_zero_or_ge t with h2 | h2 <;>
    linarith

/-- Claim C7: under the ratio combination rule the aggregate equals
`positive_total / (positive_total + negative_total)` whenever the two
totals are not both zero: `detect_fake_news` returns
`credible_score / (credible_score + fake_score)` and
`analyze_review_authenticity` returns
`authentic_score / (fake_score + authentic_score)` (in the review
detector the guard `max(..., 0.1)` never bites, because every nonzero
total is at least 0.15); in particular a positive total of 0.6 against
a negative total of 0.2 yields aggregate 0.75. -/
theorem C7_ratio_rule :
    (∀ t : Text, 0 < fnCred t + fnFake t →
      (detect_fake_news t).credibility = fnCred t / (fnCred t + fnFake t)) ∧
    (∀ t : Text, 0 < raFake t + raAuth t →
      (analyze_review_authenticity t).authenticity_score
        = raAuth t / (raFake t + raAuth t)) := by
  constructor
  · intro t h
    have hor : 0 < fnCred t ∨ 0 < fnFake t := by
      by_contra hc
      push_neg at hc
      linarith [hc.1, hc.2]
    simp only [detect_fake_news, fnCredibility]
    rw [if_pos hor, if_pos h]
  · intro t h
    have hs : (0.1 : ℚ) ≤ raFake t + raAuth t := raSum_ge_of_pos t h
    have hmax : max (raFake t + raAuth t) 0.1 = raFake t + raAuth t := max_eq_left hs
    simp only [analyze_review_authenticity, raAuthenticity]
    rw [hmax]
    split
    · have hne : raFake t + raAuth t ≠ 0 := ne_of_gt h
      have heq : 1 - raFake t / (raFake t + raAuth t) = raAuth t / (raFake t + raAuth t) := by
        field_simp
      rw [heq]
      exact max_eq_right (div_nonneg (raAuth_nonneg t) (le_of_lt h))
    · refine min_eq_right ?_
      rw [div_le_one h]
      linarith [raFake_nonneg t]

/-- Witness for C7 at concrete inputs: "data statistics percent!!!" has
credible total 0.6 against fake total 0.2 and credibility
0.6/0.8 = 0.75; the review "however" has fake total 0.3 and authentic
total 0.3, and authenticity 0.3/0.6 = 0.5. -/
theorem C7_ratio_rule_witness :
    fnCred (chars "data statistics percent!!!") = 0.6 ∧
    fnFake (chars "data statistics percent!!!") = 0.2 ∧
    (0 : ℚ) < fnCred (chars "data statistics percent!!!")
      + fnFake (chars "data statistics percent!!!") ∧
    (detect_fake_news (chars "data statistics percent!!!")).credibility = 0.75 ∧
    raFake (chars "however") = 0.3 ∧
    raAuth (chars "however") = 0.3 ∧
    (0 : ℚ) < raFake (chars "however") + raAuth (chars "however") ∧
    (analyze_review_authenticity (chars "however")).authenticity_score = 0.5 := by
  have hl : lowerText (chars "data statistics percent!!!")
      = chars "data statistics percent!!!" := by decide
  have h1 : countOcc (chars "data") (chars "data statistics percent!!!") = 1 := by decide
  have h2 : countOcc (chars "statistics") (chars "data statistics percent!!!") = 1 := by decide
  have h3 : countOcc (chars "percent") (chars "data statistics percent!!!") = 1 := by decide
  have hc : fnCred (chars "data statistics percent!!!") = 0.6 := by
    simp +decide [fnCred, fnCredRaw, fnCatScore, CREDIBLE_INDICATORS_fn, hl, h1, h2, h3]
    norm_num
  have hf : fnFake (chars "data statistics percent!!!") = 0.2 := by
    simp +decide [fnFake, fnFakeRaw, fnCatScore, FAKE_INDICATORS_fn, hl]
    norm_num
  have hpos : (0 : ℚ) < fnCred (chars "data statistics percent!!!")
      + fnFake (chars "data statistics percent!!!") := by
    rw [hc, hf]
    norm_num
  have hrf : raFake (chars "however") = 0.3 := by
    simp +decide [raFake, catScore, FAKE_INDICATORS_ra, SPAM_PATTERNS_ra, upperFrac,
      countUpper, chars]
    try norm_num
  have hra : raAuth (chars "however") = 0.3 := by
    simp +decide [raAuth, raPersonalCount, catScore, AUTHENTIC_INDICATORS_ra]
    try norm_num
  have hpos2 : (0 : ℚ) < raFake (chars "however") + raAuth (chars "however") := by
    rw [hrf, hra]
    norm_num
  refine ⟨hc, hf, hpos, ?_, hrf, hra, hpos2, ?_⟩
  · rw [C7_ratio_rule.1 _ hpos, hc, hf]
    norm_num
  · rw [C7_ratio_rule.2 _ hpos2, hrf, hra]
    norm_num

/-! ## Claim C8 -/

/-- Claim C8 counterexample: `analyze_review_authenticity` does not
clamp its per-category totals: the review "1 2 3 4 5 6 7" has seven
numeric tokens, so its returned `authentic_score` is 7 × 0.15 = 1.05,
which exceeds the claimed ceiling of 1.0. -/
theorem C8_counterexample :
    (analyze_review_authenticity (chars "1 2 3 4 5 6 7")).authentic_score = 1.05 ∧
    (1 : ℚ) < (analyze_review_authenticity (chars "1 2 3 4 5 6 7")).authentic_score := by
  have hn : countNumMatches (chars "1 2 3 4 5 6 7") = 7 := by decide
  have h : raAuth (chars "1 2 3 4 5 6 7") = 1.05 := by
    simp +decide [raAuth, raPersonalCount, catScore, AUTHENTIC_INDICATORS_ra, hn]
    norm_num
  constructor
  · simpa [analyze_review_authenticity] using h
  · simp only [analyze_review_authenticity]
    rw [h]
    norm_num

/-- Claim C8 amended: `detect_toxicity` clamps every category score to
at most 1 before taking the max (and its overall toxicity is at most
1), and `analyze_review_authenticity`'s final `authenticity_score` lies
in [0, 1]; but the review detector's returned `fake_score` and
`authentic_score` are unclamped running totals that can exceed 1. -/
theorem C8_amended_per_category_clamping (t : Text) :
    ((detect_toxicity t).toxic ≤ 1 ∧
     (detect_toxicity t).severe_toxic ≤ 1 ∧
     (detect_toxicity t).obscene ≤ 1 ∧
     (detect_toxicity t).threat ≤ 1 ∧
     (detect_toxicity t).insult ≤ 1 ∧
     (detect_toxicity t).identity_attack ≤ 1 ∧
     (detect_toxicity t).overall_toxicity ≤ 1) ∧
    (0 ≤ (analyze_review_authenticity t).authenticity_score ∧
     (analyze_review_authenticity t).authenticity_score ≤ 1) := by
  have hmaxn : (0 : ℚ) ≤ max (raFake t + raAuth t) 0.1 :=
    le_max_of_le_right (by norm_num)
  constructor
  · exact ⟨toxClamp_le_one _, toxClamp_le_one _, toxClamp_le_one _, toxClamp_le_one _,
      toxClamp_le_one _, toxClamp_le_one _, overallToxicity_le_one t⟩
  · simp only [analyze_review_authenticity, raAuthenticity]
    constructor
    · split
      · exact le_max_left 0 _
      · exact le_min zero_le_one
          (div_nonneg (raAuth_nonneg t) hmaxn)
    · split
      · refine max_le zero_le_one ?_
        have : 0 ≤ raFake t / max (raFake t + raAuth t) 0.1 :=
          div_nonneg (raFake_nonneg t) hmaxn
        linarith
      · exact min_le_left 1 _

/-! ## Claim C9 -/

/-- Claim C9 counterexample: the code contains no configuration-time
validation at all; run with an empty category collection, the spam
scoring sequence silently returns an ordinary result (classification
HAM, score 0, no matched keywords) for the text "hello" instead of
failing with an InvalidConfiguration error. -/
theorem C9_counterexample :
    (detectSpamWith [] (chars "hello") 0.4).classification = "HAM ✅" ∧
    (detectSpamWith [] (chars "hello") 0.4).spam_score = 0 ∧
    (detectSpamWith [] (chars "hello") 0.4).found_keywords = [] := by
  refine ⟨?_, ?_, ?_⟩ <;>
  · simp +decide [detectSpamWith, spamIs, spamProbability, spamScore, spamPatternScore,
      catScore, foundKeywords, upperFrac, countUpper, chars]
    try norm_num

/-- Claim C9 amended: the detectors perform no configuration
validation; the category dictionaries are hardwired non-empty
constants, and the scoring sequence run with an empty category
collection silently returns a result computed from the structural
patterns alone (keyword score 0, no matched keywords) — no
InvalidConfiguration failure path exists. -/
theorem C9_amended_no_configuration_validation (t : Text) (threshold : ℚ) :
    (detectSpamWith [] t threshold).spam_score = spamPatternScore t ∧
    (detectSpamWith [] t threshold).found_keywords = [] ∧
    spam_keywords ≠ [] := by
  refine ⟨?_, ?_, by decide⟩
  · simp [detectSpamWith, spamScore, catScore]
  · simp [detectSpamWith, foundKeywords]

/-! ## Claim C10 -/

/-- Claim C10: for every input text and every threshold, the result of
`detect_spam` satisfies `ham_probability = 1 - spam_probability` and
`confidence = max(spam_probability, ham_probability)`, so the reported
confidence is always at least 0.5. -/
theorem C10_confidence_at_least_half (t : Text) (threshold : ℚ) :
    (detect_spam t threshold).ham_probability
        = 1 - (detect_spam t threshold).spam_probability ∧
    (detect_spam t threshold).confidence
        = max (detect_spam t threshold).spam_probability
            (detect_spam t threshold).ham_probability ∧
    (1 : ℚ) / 2 ≤ (detect_spam t threshold).confidence := by
  simp only [detect_spam, detectSpamWith]
  refine ⟨trivial, trivial, ?_⟩
  rcases le_total (spamProbability spam_keywords t) (1 / 2) with h | h
  · exact le_max_of_le_right (by linarith)
  · exact le_max_of_le_left h

end Nlp100
